import Mathlib

/-!
Shallow embedding of `openxai/model.py`: the logistic-regression and
multi-layer-perceptron classifiers and the pretrained-model loader, together
with proofs of the specification's claims about them.

Tensors are modelled as a flat list of real-valued entries plus an explicit
shape, which is enough to capture the last-dimension semantics of
`nn.Linear` / `F.softmax(dim=-1)`, the shape semantics of `torch.squeeze`,
and the distinction between torch tensors and plain numpy arrays that the
`predict` methods rely on.
-/

namespace OpenXAI

/-- A torch tensor: a shape together with the row-major flat data. -/
structure TorchTensor where
  shape : List ℕ
  data : List ℝ

/-- A plain numpy array (what `.detach().numpy()` and `np.array` produce);
kept as a type distinct from `TorchTensor` because the spec claims the
`predict` methods decouple callers from the framework tensor type. -/
structure NumpyArray where
  shape : List ℕ
  data : List ℝ

/-- The size of the trailing dimension (the one `nn.Linear` and
`F.softmax(dim=-1)` operate over); 0 for a rank-0 tensor, on which torch's
`nn.Linear` is not defined. -/
def TorchTensor.lastDim (t : TorchTensor) : ℕ := t.shape.getLastD 0

/-- `torch.squeeze(t)`: every dimension of size 1 is removed, wherever it
occurs; the data is unchanged. -/
def torchSqueeze (t : TorchTensor) : TorchTensor :=
  ⟨t.shape.filter (fun d => d ≠ 1), t.data⟩

/-- `torch.from_numpy` (composed with the identity-on-values `.float()`). -/
def fromNumpy (a : NumpyArray) : TorchTensor := ⟨a.shape, a.data⟩

/-- `.detach().numpy()`. -/
def toNumpy (t : TorchTensor) : NumpyArray := ⟨t.shape, t.data⟩

/-- An argument to the `predict` methods: either a torch tensor (for which
`torch.is_tensor` is true) or an array-like (a numpy array or nested list,
which `np.array` turns into a numpy array). -/
inductive ModelInput where
  | tensor (t : TorchTensor)
  | array (a : NumpyArray)

/-- The flat data of a tensor cut into its trailing-dimension rows. -/
def chunkList {α : Type} (k : ℕ) : List α → List (List α)
  | [] => []
  | a :: xs => if k = 0 then [] else (a :: xs).take k :: chunkList k (xs.drop (k - 1))
termination_by l => l.length
decreasing_by simp; omega

/-- Apply `f` to every trailing-dimension row of `t`; the rows of the result
have width `outWidth`, so the shape trades its last dimension for
`outWidth`.  This is how `nn.Linear` and `F.softmax(dim=-1)` act on a
tensor of arbitrary rank. -/
def mapLastDim (outWidth : ℕ) (f : List ℝ → List ℝ) (t : TorchTensor) : TorchTensor :=
  ⟨t.shape.dropLast ++ [outWidth], ((chunkList t.lastDim t.data).map f).flatten⟩

/-- Dot product of two flat vectors. -/
def dotList (xs ys : List ℝ) : ℝ := (List.zipWith (fun a b => a * b) xs ys).sum

/-- One affine row computation of `nn.Linear`: entry `j` of the output is
`weight[j] · v + bias[j]`. -/
def affine (weight : List (List ℝ)) (bias : List ℝ) (v : List ℝ) : List ℝ :=
  List.zipWith (fun row bj => dotList row v + bj) weight bias

/-- `F.softmax` on one row: exponentiate and normalise by the row's total. -/
noncomputable def softmax (v : List ℝ) : List ℝ :=
  v.map (fun z => Real.exp z / (v.map Real.exp).sum)

/-- `F.softmax(·, dim=-1)` on a tensor. -/
noncomputable def softmaxLastDim (t : TorchTensor) : TorchTensor :=
  mapLastDim t.lastDim softmax t

/-- `nn.ReLU()`. -/
noncomputable def relu (x : ℝ) : ℝ := max 0 x

/-- `nn.LeakyReLU()` with torch's default negative slope 1/100. -/
noncomputable def leaky_relu (x : ℝ) : ℝ := if 0 ≤ x then x else x / 100

/-- `nn.Sigmoid()`. -/
noncomputable def sigmoid (x : ℝ) : ℝ := 1 / (1 + Real.exp (-x))

/-- The module-level `activation_functions` registry mapping the supported
activation names to their nonlinearities. -/
noncomputable def activation_functions : List (String × (ℝ → ℝ)) :=
  [("relu", relu), ("leaky_relu", leaky_relu), ("sigmoid", sigmoid), ("tanh", Real.tanh)]

/-- Python dict lookup `d[k]` as an `Option` (a `none` models a `KeyError`). -/
def lookupDict {α : Type} (d : List (String × α)) (k : String) : Option α :=
  (d.find? (fun p => p.1 == k)).map Prod.snd

/-! ### LogisticRegression -/

/-- The `LogisticRegression` classifier: one `nn.Linear(input_dim, n_class)`
whose weight matrix (`n_class` rows of `input_dim` entries) and bias are
recorded explicitly. -/
structure LogisticRegression where
  input_dim : ℕ
  n_class : ℕ
  weight : List (List ℝ)
  bias : List ℝ

/-- The shape invariants `nn.Linear(input_dim, n_class)` guarantees for the
parameters of a constructed `LogisticRegression`. -/
def LogisticRegression.WF (m : LogisticRegression) : Prop :=
  0 < m.input_dim ∧ 0 < m.n_class ∧ m.weight.length = m.n_class ∧
    (∀ row ∈ m.weight, row.length = m.input_dim) ∧ m.bias.length = m.n_class

instance (m : LogisticRegression) : Decidable m.WF := by
  unfold LogisticRegression.WF; infer_instance

/-- `return_ground_truth_importance`: `self.linear.weight[1, :] -
self.linear.weight[0, :]` (row index 1 minus row index 0; rows are read
with a default so the function is total, the theorems restrict to the
binary case where both rows exist as in the source). -/
def LogisticRegression.return_ground_truth_importance (m : LogisticRegression) : List ℝ :=
  List.zipWith (fun a b => a - b) (m.weight.getD 1 []) (m.weight.getD 0 [])

/-- `LogisticRegression.forward`: `F.softmax(self.linear(x), dim=-1)`. -/
noncomputable def LogisticRegression.forward (m : LogisticRegression) (x : TorchTensor) :
    TorchTensor :=
  softmaxLastDim (mapLastDim m.n_class (affine m.weight m.bias) x)

/-- `LogisticRegression.predict_with_logits`: `self.linear(x)`. -/
def LogisticRegression.predict_with_logits (m : LogisticRegression) (x : TorchTensor) :
    TorchTensor :=
  mapLastDim m.n_class (affine m.weight m.bias) x

/-- `LogisticRegression.predict`: non-tensor data goes through
`torch.from_numpy(np.array(data)).float()`, a tensor through
`torch.squeeze(data)`; then `self.forward(input).detach().numpy()`. -/
noncomputable def LogisticRegression.predict (m : LogisticRegression) (d : ModelInput) :
    NumpyArray :=
  let input : TorchTensor :=
    match d with
    | .array a => fromNumpy a
    | .tensor t => torchSqueeze t
  toNumpy (m.forward input)

/-! ### ArtificialNeuralNetwork -/

/-- One entry of the `nn.Sequential`: an affine layer or an activation. -/
inductive NetLayer where
  | linear (weight : List (List ℝ)) (bias : List ℝ)
  | activation (f : ℝ → ℝ)

/-- How one `nn.Sequential` entry acts on a tensor: an affine layer maps the
trailing dimension through `affine`, an activation is applied elementwise. -/
def NetLayer.applyTensor : NetLayer → TorchTensor → TorchTensor
  | .linear w b, t => mapLastDim w.length (affine w b) t
  | .activation f, t => ⟨t.shape, t.data.map f⟩

/-- Running a prefix (or all) of the `nn.Sequential` layers in order. -/
def applyNetTensor (net : List NetLayer) (x : TorchTensor) : TorchTensor :=
  net.foldl (fun t l => l.applyTensor t) x

/-- The constructor loop of `ArtificialNeuralNetwork.__init__`: for every
hidden layer a `nn.Linear` followed by the activation, then the final
`nn.Linear` with no activation.  Each pair carries the (weight, bias) bound
into that affine layer. -/
def buildNetwork (act : ℝ → ℝ) :
    List (List (List ℝ) × List ℝ) → List (List ℝ) × List ℝ → List NetLayer
  | [], fp => [.linear fp.1 fp.2]
  | p :: hp, fp => .linear p.1 p.2 :: .activation act :: buildNetwork act hp fp

/-- The `ArtificialNeuralNetwork` classifier: its `nn.Sequential` layer
list. -/
structure ArtificialNeuralNetwork where
  network : List NetLayer

/-- Python list/`nn.Sequential` slicing `xs[:stop]`: a nonnegative stop is
clamped to the length, a negative stop counts from the end (clamped at the
front). -/
def pythonTake {α : Type} (stop : ℤ) (xs : List α) : List α :=
  if stop < 0 then xs.take ((xs.length + stop).toNat) else xs.take stop.toNat

/-- The `ValueError` of `predict_layer`, keeping the two quantities its
message interpolates: the valid hidden-layer count `len(self.network) // 2`
and the requested index. -/
structure LayerIndexError where
  hidden_layer_count : ℕ
  requested : ℤ
deriving DecidableEq

/-- `ArtificialNeuralNetwork.predict_layer`: raises when
`hidden_layer_idx >= len(self.network) // 2`, otherwise evaluates
`self.network[:network_idx+1](x)` where
`network_idx = 2 * hidden_layer_idx + int(post_act)` and the slice has
Python semantics (a negative stop counts from the end). -/
def ArtificialNeuralNetwork.predict_layer (m : ArtificialNeuralNetwork) (x : TorchTensor)
    (hidden_layer_idx : ℤ) (post_act : Bool) : Except LayerIndexError TorchTensor :=
  if ((m.network.length / 2 : ℕ) : ℤ) ≤ hidden_layer_idx then
    .error ⟨m.network.length / 2, hidden_layer_idx⟩
  else
    let network_idx : ℤ := 2 * hidden_layer_idx + (if post_act then 1 else 0)
    .ok (applyNetTensor (pythonTake (network_idx + 1) m.network) x)

/-- `ArtificialNeuralNetwork.forward`: `F.softmax(self.network(x), dim=-1)`. -/
noncomputable def ArtificialNeuralNetwork.forward (m : ArtificialNeuralNetwork)
    (x : TorchTensor) : TorchTensor :=
  softmaxLastDim (applyNetTensor m.network x)

/-- `ArtificialNeuralNetwork.predict_with_logits`: `self.network(x)`. -/
def ArtificialNeuralNetwork.predict_with_logits (m : ArtificialNeuralNetwork)
    (x : TorchTensor) : TorchTensor :=
  applyNetTensor m.network x

/-- `ArtificialNeuralNetwork.predict_proba`: the input is used as-is when it
is a tensor, otherwise converted with `torch.from_numpy(np.array(x))`; then
`self.forward(input.float()).detach().numpy()`. -/
noncomputable def ArtificialNeuralNetwork.predict_proba (m : ArtificialNeuralNetwork)
    (d : ModelInput) : NumpyArray :=
  let input : TorchTensor :=
    match d with
    | .tensor t => t
    | .array a => fromNumpy a
  toNumpy (m.forward input)

/-- `ArtificialNeuralNetwork.predict`: a tensor input goes through
`torch.squeeze(x)`, an array-like through `torch.from_numpy(np.array(x))`;
then `self.forward(input.float()).detach().numpy()`. -/
noncomputable def ArtificialNeuralNetwork.predict (m : ArtificialNeuralNetwork)
    (d : ModelInput) : NumpyArray :=
  let input : TorchTensor :=
    match d with
    | .tensor t => torchSqueeze t
    | .array a => fromNumpy a
  toNumpy (m.forward input)

/-! ### LoadModel -/

/-- The fixed Dataverse base URL (named `dataverse_prefix` in the source). -/
def dataverse_base_url : String := "https://dataverse.harvard.edu/api/access/datafile/"

/-- The registered datasets for `'lr'` models with their artifact ids. -/
def lr_ids : List (String × String) :=
  [("adult", "8550955"), ("compas", "8550949"), ("gaussian", "8550960"),
   ("german", "8550945"), ("gmsc", "8550948"), ("heart", "8550956"),
   ("heloc", "8550950"), ("pima", "8550959")]

/-- The registered datasets for `'ann'` models with their artifact ids. -/
def ann_ids : List (String × String) :=
  [("adult", "8550958"), ("compas", "8550951"), ("gaussian", "8550957"),
   ("german", "8550946"), ("gmsc", "8550947"), ("heart", "8550954"),
   ("heloc", "8550952"), ("pima", "8550953")]

/-- The module-level `dataverse_ids` registry: per model kind, the registered
dataset-to-artifact table. -/
def dataverse_ids : List (String × List (String × String)) :=
  [("lr", lr_ids), ("ann", ann_ids)]

/-- A deserialized parameter mapping (`torch.load`'s state dict): parameter
names in insertion order, each bound to a tensor. -/
def StateDict : Type := List (String × TorchTensor)

/-- `next(iter(state_dict.values())).shape[1]`: the second dimension of the
first tensor of the mapping (defaulting to 0 where Python would raise on an
empty mapping or a rank-below-2 tensor, which no registered artifact has). -/
def numFeaturesOf (sd : StateDict) : ℕ :=
  match sd with
  | [] => 0
  | (_, t) :: _ => t.shape.getD 1 0

/-- Reading one named tensor out of a state dict, as `load_state_dict` does
when binding parameters (absent names default to an empty tensor; the
shape/name mismatch error of `load_state_dict` is not modelled, no claim
reaches it). -/
def sdGet (sd : StateDict) (name : String) : TorchTensor :=
  (lookupDict sd name).getD ⟨[], []⟩

/-- A rank-2 tensor read as its list of rows. -/
def matrixOf (t : TorchTensor) : List (List ℝ) := chunkList (t.shape.getD 1 0) t.data

/-- A `LogisticRegression(num_features)` with the state dict's
`linear.weight` / `linear.bias` bound into its affine layer. -/
def lrFromStateDict (num_features : ℕ) (sd : StateDict) : LogisticRegression :=
  { input_dim := num_features, n_class := 2,
    weight := matrixOf (sdGet sd "linear.weight"),
    bias := (sdGet sd "linear.bias").data }

/-- An `ArtificialNeuralNetwork(num_features, [100, 100])` (relu activation)
with the state dict's `network.*` weights and biases bound into its three
affine layers. -/
noncomputable def annFromStateDict (sd : StateDict) : ArtificialNeuralNetwork :=
  ⟨buildNetwork relu
    [(matrixOf (sdGet sd "network.0.weight"), (sdGet sd "network.0.bias").data),
     (matrixOf (sdGet sd "network.2.weight"), (sdGet sd "network.2.bias").data)]
    (matrixOf (sdGet sd "network.4.weight"), (sdGet sd "network.4.bias").data)⟩

/-- A loaded classifier: one of the two architectures. -/
inductive Classifier where
  | lr (m : LogisticRegression)
  | ann (m : ArtificialNeuralNetwork)

/-- How a `LoadModel` call can fail: the `KeyError` of
`dataverse_ids[ml_model]` on an unknown model kind, the
`NotImplementedError` for an unregistered dataset of a known kind
(UnsupportedCombination), the `NotImplementedError` for
`pretrained=False` (TrainingNotSupported), and the `UnboundLocalError`
the dead final branch would raise. -/
inductive LoadError where
  | keyError (ml_model : String)
  | unsupportedCombination (data_name ml_model : String)
  | trainingNotSupported
  | unboundLocalModel
deriving DecidableEq

/-- `LoadModel(data_name, ml_model, pretrained)`.  The network download and
deserialization (`requests.get` + `torch.load`) are the external
collaborator `fetch`, keyed by the artifact URL; everything else follows
the source's control flow: `pretrained` is tested last in the source text
but guards the whole body, the subscript `dataverse_ids[ml_model]` is
evaluated (and can raise `KeyError`) before the membership test on
`data_name`, and only a registered combination reaches `fetch` and
constructs a classifier. -/
noncomputable def LoadModel (fetch : String → StateDict) (data_name : String)
    (ml_model : String) (pretrained : Bool) : Except LoadError Classifier :=
  if pretrained then
    match lookupDict dataverse_ids ml_model with
    | none => .error (.keyError ml_model)
    | some ids =>
      match lookupDict ids data_name with
      | some file_id =>
        let state_dict := fetch (dataverse_base_url ++ file_id)
        let num_features := numFeaturesOf state_dict
        if ml_model == "ann" then
          .ok (.ann (annFromStateDict state_dict))
        else if ml_model == "lr" then
          .ok (.lr (lrFromStateDict num_features state_dict))
        else
          .error .unboundLocalModel
      | none => .error (.unsupportedCombination data_name ml_model)
  else
    .error .trainingNotSupported

/-! ### Helper lemmas -/

theorem buildNetwork_length (act : ℝ → ℝ) (hp : List (List (List ℝ) × List ℝ))
    (fp : List (List ℝ) × List ℝ) : (buildNetwork act hp fp).length = 2 * hp.length + 1 := by
  induction hp with
  | nil => rfl
  | cons p hp ih => simp only [buildNetwork, List.length_cons, ih]; ring

theorem applyNetTensor_append (n1 n2 : List NetLayer) (x : TorchTensor) :
    applyNetTensor (n1 ++ n2) x = applyNetTensor n2 (applyNetTensor n1 x) :=
  List.foldl_append _ _ n1 n2

theorem applyNetTensor_nil (x : TorchTensor) : applyNetTensor [] x = x := rfl

theorem chunkList_flatten {α : Type} (k : ℕ) (hk : 0 < k) (L : List (List α))
    (hL : ∀ r ∈ L, r.length = k) : chunkList k L.flatten = L := by
  induction L with
  | nil => simp [chunkList]
  | cons r L ih =>
    have hr : r.length = k := hL r (by simp)
    cases r with
    | nil => rw [List.length_nil] at hr; omega
    | cons a r2 =>
      have hflat : ((a :: r2) :: L).flatten = a :: (r2 ++ L.flatten) := by simp
      rw [hflat, chunkList, if_neg (by omega)]
      have htake : (a :: (r2 ++ L.flatten)).take k = a :: r2 := by
        rw [← List.cons_append, ← hr]
        exact List.take_left (a :: r2) L.flatten
      have hdrop : (r2 ++ L.flatten).drop (k - 1) = L.flatten := by
        have h2 : k - 1 = r2.length := by
          rw [List.length_cons] at hr; omega
        rw [h2]
        exact List.drop_left r2 L.flatten
      rw [htake, hdrop, ih (fun s hs => hL s (by simp [hs]))]

theorem softmax_length (v : List ℝ) : (softmax v).length = v.length := by
  simp [softmax]

theorem affine_length (w : List (List ℝ)) (b : List ℝ) (v : List ℝ) :
    (affine w b v).length = min w.length b.length := by
  simp [affine]

theorem softmax_sum_eq_one (v : List ℝ) (hv : v ≠ []) : (softmax v).sum = 1 := by
  have hpos : 0 < (v.map Real.exp).sum := by
    apply List.sum_pos
    · intro x hx
      obtain ⟨z, _, rfl⟩ := List.mem_map.mp hx
      exact Real.exp_pos z
    · simpa using hv
  unfold softmax
  simp only [div_eq_mul_inv]
  rw [List.sum_map_mul_right]
  exact mul_inv_cancel₀ (ne_of_gt hpos)

theorem mapLastDim_shape (outW : ℕ) (f : List ℝ → List ℝ) (t : TorchTensor) :
    (mapLastDim outW f t).shape = t.shape.dropLast ++ [outW] := rfl

theorem mapLastDim_lastDim (outW : ℕ) (f : List ℝ → List ℝ) (t : TorchTensor) :
    (mapLastDim outW f t).lastDim = outW := by
  simp [mapLastDim, TorchTensor.lastDim]

theorem zipWith_getD (f : ℝ → ℝ → ℝ) (xs ys : List ℝ) (j : ℕ)
    (hx : j < xs.length) (hy : j < ys.length) :
    (List.zipWith f xs ys).getD j 0 = f (xs.getD j 0) (ys.getD j 0) := by
  rw [List.getD_eq_getElem _ _ (by rw [List.length_zipWith]; omega),
    List.getD_eq_getElem _ _ hx, List.getD_eq_getElem _ _ hy]
  exact List.getElem_zipWith

theorem lookup_dataverse_ids_none (mk : String) (h1 : mk ≠ "lr") (h2 : mk ≠ "ann") :
    lookupDict dataverse_ids mk = none := by
  have e1 : ("lr" == mk) = false := beq_eq_false_iff_ne.mpr (Ne.symm h1)
  have e2 : ("ann" == mk) = false := beq_eq_false_iff_ne.mpr (Ne.symm h2)
  simp [lookupDict, dataverse_ids, List.find?, e1, e2]

theorem lookup_dataverse_ids_some {mk : String} {ids : List (String × String)}
    (h : lookupDict dataverse_ids mk = some ids) : mk = "lr" ∨ mk = "ann" := by
  by_cases h1 : mk = "lr"
  · exact .inl h1
  by_cases h2 : mk = "ann"
  · exact .inr h2
  rw [lookup_dataverse_ids_none mk h1 h2] at h
  exact absurd h (by simp)

theorem LoadModel_keyError_eval (fetch : String → StateDict) (dn mk : String)
    (hk : lookupDict dataverse_ids mk = none) :
    LoadModel fetch dn mk true = .error (.keyError mk) := by
  unfold LoadModel
  rw [hk]
  rfl

theorem LoadModel_notfound_eval (fetch : String → StateDict) (dn mk : String)
    (ids : List (String × String)) (hk : lookupDict dataverse_ids mk = some ids)
    (hd : lookupDict ids dn = none) :
    LoadModel fetch dn mk true = .error (.unsupportedCombination dn mk) := by
  unfold LoadModel
  rw [hk]
  show (match lookupDict ids dn with
    | some file_id =>
      if mk == "ann" then
        Except.ok (Classifier.ann (annFromStateDict (fetch (dataverse_base_url ++ file_id))))
      else if mk == "lr" then
        Except.ok (Classifier.lr (lrFromStateDict
          (numFeaturesOf (fetch (dataverse_base_url ++ file_id)))
          (fetch (dataverse_base_url ++ file_id))))
      else
        Except.error LoadError.unboundLocalModel
    | none => Except.error (LoadError.unsupportedCombination dn mk)) = _
  rw [hd]

theorem LoadModel_found_eval (fetch : String → StateDict) (dn mk : String)
    (ids : List (String × String)) (file_id : String)
    (hk : lookupDict dataverse_ids mk = some ids)
    (hd : lookupDict ids dn = some file_id) :
    LoadModel fetch dn mk true
      = if mk == "ann" then
          .ok (.ann (annFromStateDict (fetch (dataverse_base_url ++ file_id))))
        else if mk == "lr" then
          .ok (.lr (lrFromStateDict
            (numFeaturesOf (fetch (dataverse_base_url ++ file_id)))
            (fetch (dataverse_base_url ++ file_id))))
        else
          .error .unboundLocalModel := by
  unfold LoadModel
  rw [hk]
  show (match lookupDict ids dn with
    | some file_id =>
      if mk == "ann" then
        Except.ok (Classifier.ann (annFromStateDict (fetch (dataverse_base_url ++ file_id))))
      else if mk == "lr" then
        Except.ok (Classifier.lr (lrFromStateDict
          (numFeaturesOf (fetch (dataverse_base_url ++ file_id)))
          (fetch (dataverse_base_url ++ file_id))))
      else
        Except.error LoadError.unboundLocalModel
    | none => Except.error (LoadError.unsupportedCombination dn mk)) = _
  rw [hd]

/-! ### Claim theorems -/

/-- C1: for every multi-layer classifier (any activation and any hidden and
final layer parameters), every valid hidden layer index `i` with
`i < hidden layer count`, and every input tensor `x`,
`predict_layer(x, i, post_act=True)` succeeds, and applying the remaining
layers of the network (the ones the returned slice did not run) to the
returned intermediate tensor yields exactly `predict_with_logits(x)`. -/
theorem predict_layer_roundtrip (act : ℝ → ℝ) (hp : List (List (List ℝ) × List ℝ))
    (fp : List (List ℝ) × List ℝ) (x : TorchTensor) (i : ℕ) (hi : i < hp.length) :
    ∃ y, (ArtificialNeuralNetwork.mk (buildNetwork act hp fp)).predict_layer x i true = .ok y
      ∧ applyNetTensor ((buildNetwork act hp fp).drop (2 * i + 2)) y
        = (ArtificialNeuralNetwork.mk (buildNetwork act hp fp)).predict_with_logits x := by
  have hlen := buildNetwork_length act hp fp
  have hH : (buildNetwork act hp fp).length / 2 = hp.length := by omega
  have heval : (ArtificialNeuralNetwork.mk (buildNetwork act hp fp)).predict_layer x i true
      = .ok (applyNetTensor ((buildNetwork act hp fp).take (2 * i + 2)) x) := by
    unfold ArtificialNeuralNetwork.predict_layer
    rw [if_neg (by rw [hH]; omega)]
    show Except.ok (applyNetTensor
        (pythonTake ((2 * (i : ℤ) + 1) + 1) (buildNetwork act hp fp)) x) = _
    have hpt : pythonTake ((2 * (i : ℤ) + 1) + 1) (buildNetwork act hp fp)
        = (buildNetwork act hp fp).take (2 * i + 2) := by
      unfold pythonTake
      rw [if_neg (by omega)]
      congr 1
    rw [hpt]
  refine ⟨_, heval, ?_⟩
  rw [← applyNetTensor_append, List.take_append_drop]
  rfl

/-- C3: for a multi-layer classifier built with `hp.length` hidden layers,
`predict_layer` fails — with an error that reports the valid hidden-layer
count `hp.length` and the requested index — exactly when the requested
index is at least the hidden-layer count; in particular it raises at index
`hp.length` and succeeds at index `hp.length - 1`. -/
theorem predict_layer_out_of_range (act : ℝ → ℝ) (hp : List (List (List ℝ) × List ℝ))
    (fp : List (List ℝ) × List ℝ) (x : TorchTensor) (post : Bool) :
    (∀ idx : ℤ,
      (∃ e, (ArtificialNeuralNetwork.mk (buildNetwork act hp fp)).predict_layer x idx post
            = .error e ∧ e.hidden_layer_count = hp.length ∧ e.requested = idx)
        ↔ (hp.length : ℤ) ≤ idx)
    ∧ (ArtificialNeuralNetwork.mk (buildNetwork act hp fp)).predict_layer x
        (hp.length : ℤ) post = .error ⟨hp.length, (hp.length : ℤ)⟩
    ∧ ∃ y, (ArtificialNeuralNetwork.mk (buildNetwork act hp fp)).predict_layer x
        ((hp.length : ℤ) - 1) post = .ok y := by
  have hlen := buildNetwork_length act hp fp
  have hH : (buildNetwork act hp fp).length / 2 = hp.length := by omega
  have herr : ∀ idx : ℤ, (hp.length : ℤ) ≤ idx →
      (ArtificialNeuralNetwork.mk (buildNetwork act hp fp)).predict_layer x idx post
        = .error ⟨hp.length, idx⟩ := by
    intro idx hle
    unfold ArtificialNeuralNetwork.predict_layer
    rw [if_pos (by rw [hH]; exact hle)]
    rw [hH]
  have hok : ∀ idx : ℤ, idx < (hp.length : ℤ) →
      ∃ y, (ArtificialNeuralNetwork.mk (buildNetwork act hp fp)).predict_layer x idx post
        = .ok y := by
    intro idx hlt
    refine ⟨applyNetTensor
      (pythonTake ((2 * idx + (if post then 1 else 0)) + 1) (buildNetwork act hp fp)) x, ?_⟩
    unfold ArtificialNeuralNetwork.predict_layer
    rw [if_neg (by rw [hH]; omega)]
  refine ⟨fun idx => ⟨?_, fun hle => ⟨⟨hp.length, idx⟩, herr idx hle, rfl, rfl⟩⟩,
    herr _ le_rfl, hok _ (by omega)⟩
  intro ⟨e, he, _, _⟩
  by_contra hlt
  obtain ⟨y, hy⟩ := hok idx (by omega)
  rw [hy] at he
  exact absurd he (by simp)

/-- C9: the range check of `predict_layer` rejects only indices at or above
the hidden-layer count, so every negative index passes it and is evaluated
through Python's negative-stop slicing; in particular index `-1` with
`post_act=True` selects the empty prefix of the network and returns the
input unchanged. -/
theorem predict_layer_negative_index (m : ArtificialNeuralNetwork) (x : TorchTensor)
    (idx : ℤ) (hneg : idx < 0) (post : Bool) :
    (∃ y, m.predict_layer x idx post = .ok y) ∧ m.predict_layer x (-1) true = .ok x := by
  constructor
  · refine ⟨applyNetTensor
      (pythonTake ((2 * idx + (if post then 1 else 0)) + 1) m.network) x, ?_⟩
    unfold ArtificialNeuralNetwork.predict_layer
    rw [if_neg (by omega)]
  · unfold ArtificialNeuralNetwork.predict_layer
    rw [if_neg (by omega)]
    norm_num [pythonTake, applyNetTensor]

/-- Witness for C1 at a network with one hidden layer, index 0. -/
theorem predict_layer_roundtrip_witness :
    ∃ y, (ArtificialNeuralNetwork.mk
          (buildNetwork relu [([[1, 1], [1, 0]], [0, 0])] ([[1, 0]], [0]))).predict_layer
        ⟨[2], [1, 2]⟩ 0 true = .ok y
      ∧ applyNetTensor
          ((buildNetwork relu [([[1, 1], [1, 0]], [0, 0])] ([[1, 0]], [0])).drop (2 * 0 + 2)) y
        = (ArtificialNeuralNetwork.mk
            (buildNetwork relu [([[1, 1], [1, 0]], [0, 0])] ([[1, 0]], [0]))).predict_with_logits
          ⟨[2], [1, 2]⟩ :=
  predict_layer_roundtrip relu [([[1, 1], [1, 0]], [0, 0])] ([[1, 0]], [0]) ⟨[2], [1, 2]⟩ 0
    (by decide)

/-- Witness for C9 at a one-layer network and index -3. -/
theorem predict_layer_negative_index_witness :
    (∃ y, (ArtificialNeuralNetwork.mk (buildNetwork relu [] ([[1]], [0]))).predict_layer
        ⟨[1], [5]⟩ (-3) false = .ok y)
    ∧ (ArtificialNeuralNetwork.mk (buildNetwork relu [] ([[1]], [0]))).predict_layer
        ⟨[1], [5]⟩ (-1) true = .ok ⟨[1], [5]⟩ :=
  predict_layer_negative_index (ArtificialNeuralNetwork.mk (buildNetwork relu [] ([[1]], [0])))
    ⟨[1], [5]⟩ (-3) (by decide) false

/-- C6: with `pretrained = False`, `LoadModel` fails with the
training-not-supported error for every dataset name and model kind,
registered or not, and never constructs a classifier. -/
theorem LoadModel_training_not_supported (fetch : String → StateDict)
    (data_name ml_model : String) :
    LoadModel fetch data_name ml_model false = .error .trainingNotSupported := rfl

/-- C7 counterexample: for the unknown model kind "svm" (paired with the
registered dataset name "adult", so the pair is certainly unregistered)
`LoadModel` with `pretrained = True` fails with the registry `KeyError`,
which is not the unsupported-combination error the claim requires for
every unregistered pair. -/
theorem LoadModel_unknown_kind_counterexample :
    LoadModel (fun _ => ([] : StateDict)) "adult" "svm" true = .error (.keyError "svm")
    ∧ LoadError.keyError "svm" ≠ LoadError.unsupportedCombination "adult" "svm" :=
  ⟨rfl, by decide⟩

/-- C7 (amended): when the model kind is itself registered (its registry
lookup succeeds — only "lr" and "ann" are) and the dataset name is not
among that kind's registered datasets, `LoadModel` with `pretrained = True`
fails with the unsupported-combination error and returns no classifier;
for an unknown model kind the registry subscript raises a `KeyError`
instead. -/
theorem LoadModel_unsupported_combination (fetch : String → StateDict)
    (data_name ml_model : String) (ids : List (String × String))
    (hk : lookupDict dataverse_ids ml_model = some ids)
    (hd : lookupDict ids data_name = none) :
    LoadModel fetch data_name ml_model true
      = .error (.unsupportedCombination data_name ml_model) :=
  LoadModel_notfound_eval fetch data_name ml_model ids hk hd

/-- Witness for C7 at the spec's own example: an unregistered dataset name
under the registered kind "lr". -/
theorem LoadModel_unsupported_combination_witness :
    LoadModel (fun _ => ([] : StateDict)) "not-a-real-dataset" "lr" true
      = .error (.unsupportedCombination "not-a-real-dataset" "lr") :=
  LoadModel_unsupported_combination (fun _ => ([] : StateDict)) "not-a-real-dataset" "lr"
    lr_ids rfl rfl

/-- C10: for every model kind other than "lr" and "ann", `LoadModel` with
`pretrained = True` fails with the registry `KeyError` (the subscript
`dataverse_ids[ml_model]` is evaluated before the membership check), and
the unsupported-combination error can only ever arise for a registered
model kind ("lr" or "ann") whose registry does not contain the requested
dataset name. -/
theorem LoadModel_keyError_for_unknown_kind (fetch : String → StateDict)
    (data_name ml_model : String) (h1 : ml_model ≠ "lr") (h2 : ml_model ≠ "ann") :
    LoadModel fetch data_name ml_model true = .error (.keyError ml_model)
    ∧ ∀ (fetch2 : String → StateDict) (dn mk d2 m2 : String),
        LoadModel fetch2 dn mk true = .error (.unsupportedCombination d2 m2) →
        (mk = "lr" ∨ mk = "ann")
        ∧ ∃ ids, lookupDict dataverse_ids mk = some ids ∧ lookupDict ids dn = none := by
  constructor
  · exact LoadModel_keyError_eval fetch data_name ml_model
      (lookup_dataverse_ids_none ml_model h1 h2)
  · intro fetch2 dn mk d2 m2 h
    cases hk : lookupDict dataverse_ids mk with
    | none =>
      rw [LoadModel_keyError_eval fetch2 dn mk hk] at h
      exact absurd h (by simp)
    | some ids =>
      cases hd : lookupDict ids dn with
      | some file_id =>
        rw [LoadModel_found_eval fetch2 dn mk ids file_id hk hd] at h
        by_cases hann : (mk == "ann") = true
        · rw [if_pos hann] at h
          exact absurd h (by simp)
        · rw [if_neg hann] at h
          by_cases hlr : (mk == "lr") = true
          · rw [if_pos hlr] at h
            exact absurd h (by simp)
          · rw [if_neg hlr] at h
            exact absurd h (by simp)
      | none =>
        exact ⟨lookup_dataverse_ids_some hk, ids, rfl, hd⟩

/-- Witness for C10 at the unknown model kind "tree". -/
theorem LoadModel_keyError_for_unknown_kind_witness :
    LoadModel (fun _ => ([] : StateDict)) "adult" "tree" true = .error (.keyError "tree") :=
  (LoadModel_keyError_for_unknown_kind (fun _ => ([] : StateDict)) "adult" "tree"
    (by decide) (by decide)).1

/-- C5: for a well-formed binary (n_class = 2) LogisticRegression,
`return_ground_truth_importance` has length `input_dim` and is entrywise
exactly row index 1 minus row index 0 of the affine weight matrix. -/
theorem ground_truth_importance_eq (m : LogisticRegression) (hwf : m.WF)
    (h2 : m.n_class = 2) :
    m.return_ground_truth_importance.length = m.input_dim
    ∧ ∀ j : ℕ, j < m.input_dim →
        m.return_ground_truth_importance.getD j 0
          = (m.weight.getD 1 []).getD j 0 - (m.weight.getD 0 []).getD j 0 := by
  obtain ⟨-, -, hw, hrows, -⟩ := hwf
  rw [h2] at hw
  obtain ⟨r0, r1, hlist⟩ := List.length_eq_two.mp hw
  have h0 : r0.length = m.input_dim := hrows r0 (by rw [hlist]; simp)
  have h1 : r1.length = m.input_dim := hrows r1 (by rw [hlist]; simp)
  unfold LogisticRegression.return_ground_truth_importance
  rw [hlist]
  constructor
  · simp [List.length_zipWith, h0, h1]
  · intro j hj
    exact zipWith_getD _ r1 r0 j (by omega) (by omega)

/-- Witness for C5 at a concrete 2-by-2 weight matrix. -/
theorem ground_truth_importance_eq_witness :
    (LogisticRegression.return_ground_truth_importance
        ⟨2, 2, [[1, 0], [0, 1]], [0, 0]⟩).length
      = (⟨2, 2, [[1, 0], [0, 1]], [0, 0]⟩ : LogisticRegression).input_dim
    ∧ ∀ j : ℕ, j < (⟨2, 2, [[1, 0], [0, 1]], [0, 0]⟩ : LogisticRegression).input_dim →
        (LogisticRegression.return_ground_truth_importance
            ⟨2, 2, [[1, 0], [0, 1]], [0, 0]⟩).getD j 0
          = (([[1, 0], [0, 1]] : List (List ℝ)).getD 1 []).getD j 0
            - (([[1, 0], [0, 1]] : List (List ℝ)).getD 0 []).getD j 0 :=
  ground_truth_importance_eq ⟨2, 2, [[1, 0], [0, 1]], [0, 0]⟩ (by decide) (by decide)

/-- C8: for a well-formed LogisticRegression and any input tensor whose
trailing dimension is `input_dim`, each trailing-dimension row of the
`forward` output is the softmax of the affine output of the matching input
row, and each such row sums to 1. -/
theorem lr_forward_softmax_rows (m : LogisticRegression) (x : TorchTensor)
    (hwf : m.WF) (hx : x.lastDim = m.input_dim) :
    chunkList m.n_class (m.forward x).data
      = (chunkList m.input_dim x.data).map (fun v => softmax (affine m.weight m.bias v))
    ∧ ∀ row ∈ chunkList m.n_class (m.forward x).data, row.sum = 1 := by
  obtain ⟨-, hc, hw, -, hb⟩ := hwf
  have haff : ∀ v, (affine m.weight m.bias v).length = m.n_class := by
    intro v; rw [affine_length, hw, hb]; omega
  have hlin : (mapLastDim m.n_class (affine m.weight m.bias) x).data
      = ((chunkList m.input_dim x.data).map (affine m.weight m.bias)).flatten := by
    rw [← hx]; rfl
  have hdata : (m.forward x).data
      = ((chunkList m.input_dim x.data).map
          (fun v => softmax (affine m.weight m.bias v))).flatten := by
    show (softmaxLastDim (mapLastDim m.n_class (affine m.weight m.bias) x)).data = _
    unfold softmaxLastDim
    show ((chunkList (mapLastDim m.n_class (affine m.weight m.bias) x).lastDim
        (mapLastDim m.n_class (affine m.weight m.bias) x).data).map softmax).flatten = _
    rw [mapLastDim_lastDim, hlin,
      chunkList_flatten m.n_class hc _ (by intro r hr; obtain ⟨v, -, rfl⟩ := List.mem_map.mp hr; exact haff v),
      List.map_map]
    rfl
  have hrows : chunkList m.n_class (m.forward x).data
      = (chunkList m.input_dim x.data).map (fun v => softmax (affine m.weight m.bias v)) := by
    rw [hdata]
    refine chunkList_flatten m.n_class hc _ ?_
    intro r hr
    obtain ⟨v, -, rfl⟩ := List.mem_map.mp hr
    rw [softmax_length, haff]
  refine ⟨hrows, ?_⟩
  intro row hrow
  rw [hrows] at hrow
  obtain ⟨v, -, rfl⟩ := List.mem_map.mp hrow
  apply softmax_sum_eq_one
  have := haff v
  intro hnil
  rw [hnil] at this
  simp at this
  omega

/-- Witness for C8 at a 2-feature binary model and a rank-1 input. -/
theorem lr_forward_softmax_rows_witness :
    chunkList 2 ((LogisticRegression.forward ⟨2, 2, [[1, 0], [0, 1]], [0, 0]⟩
        ⟨[2], [1, 2]⟩).data)
      = (chunkList 2 ([1, 2] : List ℝ)).map
          (fun v => softmax (affine [[1, 0], [0, 1]] [0, 0] v))
    ∧ ∀ row ∈ chunkList 2 ((LogisticRegression.forward ⟨2, 2, [[1, 0], [0, 1]], [0, 0]⟩
        ⟨[2], [1, 2]⟩).data), row.sum = 1 :=
  lr_forward_softmax_rows ⟨2, 2, [[1, 0], [0, 1]], [0, 0]⟩ ⟨[2], [1, 2]⟩
    (by decide) (by decide)

/-- C2 counterexample: on the tensor input of shape [1, 1, 3] (a singleton
batch dimension in front of a single example carrying one more stray
singleton dimension), squeezing exactly one leading singleton batch
dimension would compute forward on shape [1, 3] and return a [1, 2]
probability array, but `predict` squeezes every singleton dimension and
returns a [2] array instead. -/
theorem lr_predict_counterexample :
    LogisticRegression.predict ⟨3, 2, [[1, 0, 0], [0, 0, 0]], [0, 0]⟩
        (.tensor ⟨[1, 1, 3], [0, 0, 0]⟩)
      ≠ toNumpy (LogisticRegression.forward ⟨3, 2, [[1, 0, 0], [0, 0, 0]], [0, 0]⟩
        ⟨[1, 3], [0, 0, 0]⟩) := by
  intro h
  have hs := congrArg NumpyArray.shape h
  simp [LogisticRegression.predict, toNumpy, LogisticRegression.forward, softmaxLastDim,
    mapLastDim, torchSqueeze, TorchTensor.lastDim] at hs

/-- C2 (amended): `predict` always returns a plain numpy array of
`forward`, but the squeezing differs from the claim: a tensor input is
squeezed by `torch.squeeze`, which removes every singleton dimension
(leading or not), so the output shape is the fully squeezed input shape
with its last dimension replaced by n_class; an array-like input is not
squeezed at all. -/
theorem lr_predict_squeeze_shape (m : LogisticRegression) (t : TorchTensor)
    (a : NumpyArray) :
    m.predict (.tensor t) = toNumpy (m.forward (torchSqueeze t))
    ∧ (m.predict (.tensor t)).shape
        = (t.shape.filter (fun d => d ≠ 1)).dropLast ++ [m.n_class]
    ∧ m.predict (.array a) = toNumpy (m.forward (fromNumpy a))
    ∧ (m.predict (.array a)).shape = a.shape.dropLast ++ [m.n_class] := by
  refine ⟨rfl, ?_, rfl, ?_⟩
  · show (toNumpy (m.forward (torchSqueeze t))).shape = _
    simp [toNumpy, LogisticRegression.forward, softmaxLastDim, mapLastDim, torchSqueeze,
      TorchTensor.lastDim]
  · show (toNumpy (m.forward (fromNumpy a))).shape = _
    simp [toNumpy, LogisticRegression.forward, softmaxLastDim, mapLastDim, fromNumpy,
      TorchTensor.lastDim]

/-- C4 counterexample: on the tensor input of shape [1, 1, 3], `predict`
squeezes the singleton dimensions away and returns a [2] array while
`predict_proba` leaves the input as-is and returns a [1, 1, 2] array, so
the two methods do not agree on every input. -/
theorem ann_predict_counterexample :
    (ArtificialNeuralNetwork.mk
        (buildNetwork relu [] ([[1, 0, 0], [0, 0, 0]], [0, 0]))).predict
        (.tensor ⟨[1, 1, 3], [0, 0, 0]⟩)
      ≠ (ArtificialNeuralNetwork.mk
          (buildNetwork relu [] ([[1, 0, 0], [0, 0, 0]], [0, 0]))).predict_proba
          (.tensor ⟨[1, 1, 3], [0, 0, 0]⟩) := by
  intro h
  have hs := congrArg NumpyArray.shape h
  simp [ArtificialNeuralNetwork.predict, ArtificialNeuralNetwork.predict_proba,
    ArtificialNeuralNetwork.forward, applyNetTensor, NetLayer.applyTensor, buildNetwork,
    softmaxLastDim, mapLastDim, torchSqueeze, toNumpy, TorchTensor.lastDim] at hs

/-- C4 (amended): `predict` and `predict_proba` agree on every array-like
(non-tensor) input and on every tensor input whose shape has no singleton
dimension; they differ exactly where `torch.squeeze` changes the input
shape, because `predict` squeezes tensor inputs and `predict_proba` does
not. -/
theorem ann_predict_eq_predict_proba (m : ArtificialNeuralNetwork) (t : TorchTensor)
    (a : NumpyArray) (ht : (1 : ℕ) ∉ t.shape) :
    m.predict (.tensor t) = m.predict_proba (.tensor t)
    ∧ m.predict (.array a) = m.predict_proba (.array a) := by
  constructor
  · show toNumpy (m.forward (torchSqueeze t)) = toNumpy (m.forward t)
    have hsq : torchSqueeze t = t := by
      unfold torchSqueeze
      have hfe : t.shape.filter (fun d => d ≠ 1) = t.shape := by
        refine List.filter_eq_self.mpr ?_
        intro d hd
        have hne : d ≠ 1 := by
          rintro rfl
          exact ht hd
        simpa using hne
      rw [hfe]
    rw [hsq]
  · rfl

/-- Witness for C4 at a one-layer network, a [2, 3] tensor with no
singleton dimension, and a rank-1 array-like input. -/
theorem ann_predict_eq_predict_proba_witness :
    (ArtificialNeuralNetwork.mk
        (buildNetwork relu [] ([[1, 0, 0], [0, 0, 0]], [0, 0]))).predict
        (.tensor ⟨[2, 3], [0, 0, 0, 0, 0, 0]⟩)
      = (ArtificialNeuralNetwork.mk
          (buildNetwork relu [] ([[1, 0, 0], [0, 0, 0]], [0, 0]))).predict_proba
          (.tensor ⟨[2, 3], [0, 0, 0, 0, 0, 0]⟩)
    ∧ (ArtificialNeuralNetwork.mk
        (buildNetwork relu [] ([[1, 0, 0], [0, 0, 0]], [0, 0]))).predict
        (.array ⟨[3], [0, 0, 0]⟩)
      = (ArtificialNeuralNetwork.mk
          (buildNetwork relu [] ([[1, 0, 0], [0, 0, 0]], [0, 0]))).predict_proba
          (.array ⟨[3], [0, 0, 0]⟩) :=
  ann_predict_eq_predict_proba
    (ArtificialNeuralNetwork.mk (buildNetwork relu [] ([[1, 0, 0], [0, 0, 0]], [0, 0])))
    ⟨[2, 3], [0, 0, 0, 0, 0, 0]⟩ ⟨[3], [0, 0, 0]⟩ (by decide)

end OpenXAI
